import Mathlib

/-!
# Shallow embedding of the yoko-cafe-app order/payment handlers

This file embeds the server-side handlers of the café ordering
application — `createOrder` (src/server/src/handlers/create_order.ts),
`createPayment`, `updatePaymentStatus`, `updateOrderStatus` — together
with the relevant parts of the relational schema
(src/server/src/db/schema.ts), and proves properties of them.

Modelling conventions:
* Currency columns are PostgreSQL `numeric(10, 2)`: they hold exact
  decimals with two fractional digits.  We model the stored values as
  integer cents (`Int`), and the JavaScript `parseFloat` view of them as
  exact rationals (`ℚ`).  Persisting a computed rational into a
  `numeric(10, 2)` column rounds it to two decimal places half away from
  zero (PostgreSQL `numeric` rounding); `round2` below models that.
* The database is a `Store` value holding the table contents; each
  handler is a function from the store (plus an environment carrying
  `Date.now()` and the success/failure of the storage layer) to the new
  store and an `Except` result, mirroring thrown errors.
* `drizzle`'s `select().where(eq(col, v))` with a `[0]` projection is
  `List.find?`; `insert` appends a row; `update().where(eq(id, v))`
  maps over the rows.
-/

namespace YokoCafe

/-! ## Enumerations (src/server/src/db/schema.ts pgEnum definitions) -/

inductive Size where
  | small
  | medium
  | large
deriving DecidableEq, Repr

inductive MilkType where
  | noMilk
  | whole
  | skim
  | twoPercent
  | oat
  | almond
  | soy
  | coconut
deriving DecidableEq, Repr

inductive OrderStatus where
  | pending
  | confirmed
  | preparing
  | ready
  | completed
  | cancelled
deriving DecidableEq, Repr

inductive PaymentStatus where
  | pending
  | processing
  | completed
  | failed
  | refunded
deriving DecidableEq, Repr

inductive PaymentMethod where
  | credit_card
  | debit_card
  | mobile_wallet
  | qr_code
  | cash
deriving DecidableEq, Repr

/-! ## Money

`toMoney` converts a `numeric(10,2)` column value, stored as integer
cents, to the rational that `parseFloat` yields.  `pgRound`/`round2`
model PostgreSQL rounding of a `numeric` to scale 2 (half away from
zero), which happens when a computed value is persisted. -/

def toMoney (cents : Int) : ℚ := (cents : ℚ) / 100

def TAX_RATE : ℚ := 1 / 10

def EXTRA_SHOT_PRICE : ℚ := 3 / 4

def pgRound (x : ℚ) : Int :=
  if 0 ≤ x then ⌊x + 1 / 2⌋ else ⌈x - 1 / 2⌉

def round2 (x : ℚ) : ℚ := (pgRound (x * 100) : ℚ) / 100

/-- A rational representable exactly in a `numeric(10,2)` column. -/
def isCents (x : ℚ) : Prop := ∃ k : Int, x = (k : ℚ) / 100

/-! ## Table rows (src/server/src/db/schema.ts) -/

structure MenuItem where
  id : Nat
  name : String
  base_price : Int
  is_available : Bool
  has_size_options : Bool
  max_extra_shots : Nat
deriving DecidableEq, Repr

structure SizePricing where
  menu_item_id : Nat
  size : Size
  price_modifier : Int
deriving DecidableEq, Repr

structure OrderRow where
  id : Nat
  order_number : String
  status : OrderStatus
  total_amount : ℚ
  tax_amount : ℚ
  customer_name : Option String
  customer_phone : Option String
  special_instructions : Option String
  estimated_ready_time : Option Nat
  created_at : Nat
  updated_at : Nat
deriving DecidableEq, Repr

structure OrderItemRow where
  order_id : Nat
  menu_item_id : Nat
  quantity : Nat
  size : Option Size
  milk_type : Option MilkType
  extra_shots : Nat
  unit_price : ℚ
  total_price : ℚ
  special_instructions : Option String
deriving DecidableEq, Repr

structure PaymentRow where
  id : Nat
  order_id : Nat
  amount : ℚ
  payment_method : PaymentMethod
  payment_status : PaymentStatus
  transaction_id : Option String
  payment_gateway_response : Option String
  updated_at : Nat
deriving DecidableEq, Repr

structure Store where
  menuItems : List MenuItem
  sizePricing : List SizePricing
  orders : List OrderRow
  orderItems : List OrderItemRow
  payments : List PaymentRow
  nextOrderId : Nat
  nextPaymentId : Nat
deriving DecidableEq, Repr

/-! ## Handler inputs (src/server/src/schema.ts zod input schemas) -/

structure CreateOrderItemInput where
  menu_item_id : Nat
  quantity : Nat
  size : Option Size
  milk_type : Option MilkType
  extra_shots : Nat
  special_instructions : Option String
deriving DecidableEq, Repr

structure CreateOrderInput where
  customer_name : Option String
  customer_phone : Option String
  items : List CreateOrderItemInput
  special_instructions : Option String
  payment_method : PaymentMethod
deriving DecidableEq, Repr

structure CreatePaymentInput where
  order_id : Nat
  amount : ℚ
  payment_method : PaymentMethod
  transaction_id : Option String
deriving DecidableEq, Repr

/-- `transaction_id` and `payment_gateway_response` are
`.nullable().optional()`: the outer `Option` is presence of the field
(`undefined` when absent), the inner one its nullability. -/
structure UpdatePaymentStatusInput where
  id : Nat
  payment_status : PaymentStatus
  transaction_id : Option (Option String)
  payment_gateway_response : Option (Option String)
deriving DecidableEq, Repr

/-- `estimated_ready_time` is `.nullable().optional()`: outer `Option`
is field presence, inner one nullability. -/
structure UpdateOrderStatusInput where
  id : Nat
  status : OrderStatus
  estimated_ready_time : Option (Option Nat)
deriving DecidableEq, Repr

/-! ## Errors -/

inductive OrderError where
  | notFound (menu_item_id : Nat)
  | unavailable (name : String)
  | limitExceeded (name : String) (max : Nat)
  | persistence
deriving DecidableEq, Repr

inductive PaymentError where
  | orderNotFound (order_id : Nat)
  | amountMismatch (amount : ℚ) (orderTotal : ℚ)
  | paymentNotFound (id : Nat)
deriving DecidableEq, Repr

inductive UpdateOrderError where
  | orderNotFound (id : Nat)
deriving DecidableEq, Repr

/-- Environment of one handler call: `Date.now()` and whether the
storage layer succeeds at the order-items insert (the second, separate
`db.insert` statement in `createOrder`). -/
structure Env where
  now : Nat
  itemsWriteOk : Bool
deriving DecidableEq, Repr

/-! ## Database access helpers -/

/-- `db.select().from(menuItemsTable).where(eq(menuItemsTable.id, id))`
followed by the `[0]` projection after the length check. -/
def findMenuItem (s : Store) (id : Nat) : Option MenuItem :=
  s.menuItems.find? (fun m => m.id == id)

/-- `db.select().from(sizePricingTable).where(eq(menu_item_id, itemId))`
then `.find(sp => sp.size === item.size)`. -/
def findSizeModifier (s : Store) (itemId : Nat) (sz : Size) : Option SizePricing :=
  (s.sizePricing.filter (fun sp => sp.menu_item_id == itemId)).find? (fun sp => sp.size == sz)

def findOrder (s : Store) (id : Nat) : Option OrderRow :=
  s.orders.find? (fun o => o.id == id)

def findPayment (s : Store) (id : Nat) : Option PaymentRow :=
  s.payments.find? (fun p => p.id == id)

/-! ## createOrder (src/server/src/handlers/create_order.ts) -/

/-- One entry of `orderItemsData` (the per-line result of the pricing
loop, before `order_id` is attached). -/
structure PricedLine where
  menu_item_id : Nat
  quantity : Nat
  size : Option Size
  milk_type : Option MilkType
  extra_shots : Nat
  unit_price : ℚ
  total_price : ℚ
  special_instructions : Option String
deriving DecidableEq, Repr

/-- The body of the `for (const item of input.items)` loop: look the
menu item up, check availability, apply the size modifier when the item
has size options and a matching size-pricing row exists, check and price
extra shots.  There is no clamping of the unit price at zero. -/
def priceLine (s : Store) (item : CreateOrderItemInput) : Except OrderError PricedLine :=
  match findMenuItem s item.menu_item_id with
  | Option.none => Except.error (OrderError.notFound item.menu_item_id)
  | Option.some menuItem =>
    if menuItem.is_available = false then
      Except.error (OrderError.unavailable menuItem.name)
    else
      let basePrice := toMoney menuItem.base_price
      let withSize :=
        match item.size with
        | Option.none => basePrice
        | Option.some sz =>
          if menuItem.has_size_options then
            match findSizeModifier s item.menu_item_id sz with
            | Option.some sp => basePrice + toMoney sp.price_modifier
            | Option.none => basePrice
          else basePrice
      if 0 < item.extra_shots then
        if menuItem.max_extra_shots < item.extra_shots then
          Except.error (OrderError.limitExceeded menuItem.name menuItem.max_extra_shots)
        else
          let unitPrice := withSize + (item.extra_shots : ℚ) * EXTRA_SHOT_PRICE
          Except.ok
            { menu_item_id := item.menu_item_id, quantity := item.quantity
              size := item.size, milk_type := item.milk_type
              extra_shots := item.extra_shots
              unit_price := unitPrice
              total_price := unitPrice * (item.quantity : ℚ)
              special_instructions := item.special_instructions }
      else
        Except.ok
          { menu_item_id := item.menu_item_id, quantity := item.quantity
            size := item.size, milk_type := item.milk_type
            extra_shots := item.extra_shots
            unit_price := withSize
            total_price := withSize * (item.quantity : ℚ)
            special_instructions := item.special_instructions }

/-- The whole pricing loop; the first thrown error aborts it. -/
def priceLines (s : Store) : List CreateOrderItemInput → Except OrderError (List PricedLine)
  | [] => Except.ok []
  | item :: rest =>
    match priceLine s item with
    | Except.error e => Except.error e
    | Except.ok pl =>
      match priceLines s rest with
      | Except.error e => Except.error e
      | Except.ok pls => Except.ok (pl :: pls)

/-- `db.insert(ordersTable)`: the `order_number` column is declared
`.unique()` in src/server/src/db/schema.ts, so the insert fails on a
duplicate; currency values are rounded to scale 2 by the column type. -/
def insertOrder (s : Store) (o : OrderRow) : Except OrderError (Store × OrderRow) :=
  if s.orders.any (fun r => r.order_number == o.order_number) then
    Except.error OrderError.persistence
  else
    let row := { o with
      total_amount := round2 o.total_amount
      tax_amount := round2 o.tax_amount }
    Except.ok ({ s with orders := s.orders ++ [row], nextOrderId := s.nextOrderId + 1 }, row)

/-- `db.insert(orderItemsTable)` with the list of order items; currency
values are rounded to scale 2 by the column type. -/
def insertOrderItems (s : Store) (rows : List OrderItemRow) : Store :=
  { s with orderItems := s.orderItems ++ rows.map (fun r =>
      { r with unit_price := round2 r.unit_price, total_price := round2 r.total_price }) }

/-- `createOrder`: generates `"YC" + Date.now()`, prices every line
(throwing on the first invalid one, before any write), computes the
totals, inserts the order row, then — as a separate statement, with no
transaction around the two inserts — inserts the order-item rows.
`env.itemsWriteOk = false` models the storage layer failing that second
insert; the thrown error is logged and rethrown by the `catch` block,
with no rollback of the already-committed order row. -/
def createOrderRun (env : Env) (s : Store) (input : CreateOrderInput) :
    Store × Except OrderError OrderRow :=
  let orderNumber := "YC" ++ toString env.now
  match priceLines s input.items with
  | Except.error e => (s, Except.error e)
  | Except.ok lines =>
    let subtotal := (lines.map (fun l => l.total_price)).sum
    let taxAmount := subtotal * TAX_RATE
    let totalAmount := subtotal + taxAmount
    match insertOrder s
        { id := s.nextOrderId, order_number := orderNumber
          status := OrderStatus.pending
          total_amount := totalAmount, tax_amount := taxAmount
          customer_name := input.customer_name
          customer_phone := input.customer_phone
          special_instructions := input.special_instructions
          estimated_ready_time := Option.none
          created_at := env.now, updated_at := env.now } with
    | Except.error e => (s, Except.error e)
    | Except.ok (s1, orderRow) =>
      if env.itemsWriteOk then
        let itemRows := lines.map (fun l =>
          { order_id := orderRow.id, menu_item_id := l.menu_item_id
            quantity := l.quantity, size := l.size, milk_type := l.milk_type
            extra_shots := l.extra_shots
            unit_price := l.unit_price, total_price := l.total_price
            special_instructions := l.special_instructions : OrderItemRow })
        (insertOrderItems s1 itemRows, Except.ok orderRow)
      else
        (s1, Except.error OrderError.persistence)

/-! ## createPayment (create_payment handler) -/

/-- The gateway-response string for the electronic branch,
`` `${input.payment_method} payment initiated` ``. -/
def methodName : PaymentMethod → String
  | PaymentMethod.credit_card => "credit_card"
  | PaymentMethod.debit_card => "debit_card"
  | PaymentMethod.mobile_wallet => "mobile_wallet"
  | PaymentMethod.qr_code => "qr_code"
  | PaymentMethod.cash => "cash"

/-- `createPayment`: validates that the order exists and that the
payment amount is within 0.01 of the order total, then simulates the
gateway (cash and QR-code complete immediately, everything else is left
processing) and inserts the payment row. -/
def createPayment (env : Env) (s : Store) (input : CreatePaymentInput) :
    Store × Except PaymentError PaymentRow :=
  match findOrder s input.order_id with
  | Option.none => (s, Except.error (PaymentError.orderNotFound input.order_id))
  | Option.some order =>
    let orderTotal := order.total_amount
    if 1 / 100 < |input.amount - orderTotal| then
      (s, Except.error (PaymentError.amountMismatch input.amount orderTotal))
    else
      let paymentStatus :=
        if input.payment_method = PaymentMethod.cash then PaymentStatus.completed
        else if input.payment_method = PaymentMethod.qr_code then PaymentStatus.completed
        else PaymentStatus.processing
      let gatewayResponse :=
        if input.payment_method = PaymentMethod.cash then "Cash payment received"
        else if input.payment_method = PaymentMethod.qr_code then
          "QR code payment processed successfully"
        else methodName input.payment_method ++ " payment initiated"
      let row : PaymentRow :=
        { id := s.nextPaymentId, order_id := input.order_id
          amount := round2 input.amount
          payment_method := input.payment_method
          payment_status := paymentStatus
          transaction_id := input.transaction_id
          payment_gateway_response := Option.some gatewayResponse
          updated_at := env.now }
      ({ s with payments := s.payments ++ [row], nextPaymentId := s.nextPaymentId + 1 },
       Except.ok row)

/-! ## updatePaymentStatus (update_payment_status handler) -/

/-- The `updateData` object: always sets `payment_status` and
`updated_at`, and sets `transaction_id` / `payment_gateway_response`
only when the input provides them (`!== undefined`). -/
def applyPaymentUpdate (env : Env) (input : UpdatePaymentStatusInput) (p : PaymentRow) :
    PaymentRow :=
  let p1 := { p with payment_status := input.payment_status, updated_at := env.now }
  let p2 :=
    match input.transaction_id with
    | Option.some t => { p1 with transaction_id := t }
    | Option.none => p1
  match input.payment_gateway_response with
  | Option.some g => { p2 with payment_gateway_response := g }
  | Option.none => p2

/-- `updatePaymentStatus`: checks the payment exists, updates it, and —
when the new status is `completed` — also sets the referenced order's
status to `confirmed` with a fresh `updated_at`. -/
def updatePaymentStatus (env : Env) (s : Store) (input : UpdatePaymentStatusInput) :
    Store × Except PaymentError PaymentRow :=
  match findPayment s input.id with
  | Option.none => (s, Except.error (PaymentError.paymentNotFound input.id))
  | Option.some existingPayment =>
    let s1 := { s with payments := s.payments.map (fun p =>
      if p.id == input.id then applyPaymentUpdate env input p else p) }
    let updatedPayment := applyPaymentUpdate env input existingPayment
    if input.payment_status = PaymentStatus.completed then
      let s2 := { s1 with orders := s1.orders.map (fun o =>
        if o.id == existingPayment.order_id then
          { o with status := OrderStatus.confirmed, updated_at := env.now }
        else o) }
      (s2, Except.ok updatedPayment)
    else
      (s1, Except.ok updatedPayment)

/-! ## updateOrderStatus (update_order_status handler) -/

/-- The `updateData` object: always sets `status` and `updated_at`, and
overwrites `estimated_ready_time` only when the input provides the field
(`!== undefined`). -/
def applyOrderUpdate (env : Env) (input : UpdateOrderStatusInput) (o : OrderRow) : OrderRow :=
  let o1 := { o with status := input.status, updated_at := env.now }
  match input.estimated_ready_time with
  | Option.some t => { o1 with estimated_ready_time := t }
  | Option.none => o1

/-- `updateOrderStatus`: checks the order exists, then applies the
update; no constraint whatsoever on the status transition. -/
def updateOrderStatus (env : Env) (s : Store) (input : UpdateOrderStatusInput) :
    Store × Except UpdateOrderError OrderRow :=
  match findOrder s input.id with
  | Option.none => (s, Except.error (UpdateOrderError.orderNotFound input.id))
  | Option.some existingOrder =>
    let s1 := { s with orders := s.orders.map (fun o =>
      if o.id == input.id then applyOrderUpdate env input o else o) }
    (s1, Except.ok (applyOrderUpdate env input existingOrder))

/-! ## Spec-side definitions

These follow the specification's wording, to be compared against the
source-derived definitions above. -/

/-- Modelled from the spec: "m is the configured (menu_item, size) price
modifier when a size is specified, the item's has_size_options flag is
true, and a matching size-pricing row exists, and m = 0 otherwise". -/
def sizeModifierAmount (s : Store) (mi : MenuItem) (line : CreateOrderItemInput) : ℚ :=
  match line.size with
  | Option.none => 0
  | Option.some sz =>
    if mi.has_size_options then
      match findSizeModifier s line.menu_item_id sz with
      | Option.some sp => toMoney sp.price_modifier
      | Option.none => 0
    else 0

/-- Modelled from the spec: the per-line preconditions in their stated
check order — existence, availability, then (only when extra_shots > 0)
the extra-shots limit. -/
def lineCheck (s : Store) (line : CreateOrderItemInput) : Option OrderError :=
  match findMenuItem s line.menu_item_id with
  | Option.none => Option.some (OrderError.notFound line.menu_item_id)
  | Option.some mi =>
    if mi.is_available = false then Option.some (OrderError.unavailable mi.name)
    else if 0 < line.extra_shots ∧ mi.max_extra_shots < line.extra_shots then
      Option.some (OrderError.limitExceeded mi.name mi.max_extra_shots)
    else Option.none

/-- Modelled from the spec: the first failing check on the first failing
line, scanning the lines in order. -/
def firstLineError (s : Store) : List CreateOrderItemInput → Option OrderError
  | [] => Option.none
  | line :: rest =>
    match lineCheck s line with
    | Option.some e => Option.some e
    | Option.none => firstLineError s rest

/-! ## Concrete fixtures -/

/-- A plain available menu item: base price 5.00, up to 3 extra shots. -/
def coffeeItem : MenuItem :=
  { id := 1, name := "Test Coffee", base_price := 500, is_available := true
    has_size_options := false, max_extra_shots := 3 }

/-- An available item with size options: base price 4.50, up to 2 shots. -/
def latteItem : MenuItem :=
  { id := 2, name := "Test Latte", base_price := 450, is_available := true
    has_size_options := true, max_extra_shots := 2 }

/-- An unavailable item. -/
def offItem : MenuItem :=
  { id := 3, name := "Unavailable Item", base_price := 300, is_available := false
    has_size_options := false, max_extra_shots := 0 }

/-- An item whose small-size discount exceeds its base price. -/
def discountItem : MenuItem :=
  { id := 4, name := "Deep Discount", base_price := 100, is_available := true
    has_size_options := true, max_extra_shots := 0 }

def latteMediumPricing : SizePricing :=
  { menu_item_id := 2, size := Size.medium, price_modifier := 100 }

def latteLargePricing : SizePricing :=
  { menu_item_id := 2, size := Size.large, price_modifier := 200 }

def deepDiscountPricing : SizePricing :=
  { menu_item_id := 4, size := Size.small, price_modifier := -200 }

/-- The base catalog used by the concrete scenarios. -/
def baseStore : Store :=
  { menuItems := [coffeeItem, latteItem, offItem, discountItem]
    sizePricing := [latteMediumPricing, latteLargePricing, deepDiscountPricing]
    orders := [], orderItems := [], payments := []
    nextOrderId := 1, nextPaymentId := 1 }

def baseEnv : Env := { now := 1700000000000, itemsWriteOk := true }

def plainLine : CreateOrderItemInput :=
  { menu_item_id := 1, quantity := 1, size := Option.none
    milk_type := Option.some MilkType.oat, extra_shots := 0
    special_instructions := Option.none }

def plainOrderInput : CreateOrderInput :=
  { customer_name := Option.some "John Doe", customer_phone := Option.some "+1234567890"
    items := [plainLine]
    special_instructions := Option.none, payment_method := PaymentMethod.credit_card }

/-- A line hitting the negative-unit-price case: size small on the
deep-discount item (1.00 − 2.00 = −1.00). -/
def discountLine : CreateOrderItemInput :=
  { menu_item_id := 4, quantity := 1, size := Option.some Size.small
    milk_type := Option.none, extra_shots := 0
    special_instructions := Option.none }

def discountOrderInput : CreateOrderInput :=
  { customer_name := Option.none, customer_phone := Option.none
    items := [discountLine]
    special_instructions := Option.none, payment_method := PaymentMethod.cash }

example :
    ((createOrderRun baseEnv baseStore plainOrderInput).1.orderItems.map
      (fun r => r.unit_price)) = [5] := by
  simp [createOrderRun, priceLines, priceLine, findMenuItem, findSizeModifier,
    insertOrder, insertOrderItems, baseEnv, baseStore, plainOrderInput, plainLine,
    coffeeItem, latteItem, offItem, discountItem, latteMediumPricing,
    latteLargePricing, deepDiscountPricing, toMoney, TAX_RATE, EXTRA_SHOT_PRICE,
    round2, pgRound]
  norm_num

example :
    ((createOrderRun baseEnv baseStore plainOrderInput).1.orders.map
      (fun o => (o.total_amount, o.tax_amount))) = [(11 / 2, 1 / 2)] := by
  simp [createOrderRun, priceLines, priceLine, findMenuItem, findSizeModifier,
    insertOrder, insertOrderItems, baseEnv, baseStore, plainOrderInput, plainLine,
    coffeeItem, latteItem, offItem, discountItem, latteMediumPricing,
    latteLargePricing, deepDiscountPricing, toMoney, TAX_RATE, EXTRA_SHOT_PRICE,
    round2, pgRound]
  norm_num

example :
    ((createOrderRun baseEnv baseStore discountOrderInput).1.orderItems.map
      (fun r => r.unit_price)) = [-1] := by
  simp [createOrderRun, priceLines, priceLine, findMenuItem, findSizeModifier,
    insertOrder, insertOrderItems, baseEnv, baseStore, discountOrderInput, discountLine,
    coffeeItem, latteItem, offItem, discountItem, latteMediumPricing,
    latteLargePricing, deepDiscountPricing, toMoney, TAX_RATE, EXTRA_SHOT_PRICE,
    round2, pgRound]
  norm_num
  rw [show (⌈(-(201 / 2) : ℚ)⌉ : Int) = -100 from by norm_num [Int.ceil_eq_iff]]
  norm_num

/-! ## Rounding lemmas -/

theorem pgRound_intCast (k : Int) : pgRound ((k : ℚ)) = k := by
  unfold pgRound
  rcases le_or_lt 0 ((k : ℚ)) with h | h
  · rw [if_pos h, show ((k : ℚ) + 1 / 2) = (1 / 2 : ℚ) + (k : ℚ) from by ring,
      Int.floor_add_int]
    norm_num
  · rw [if_neg (not_le.mpr h), show ((k : ℚ) - 1 / 2) = (-(1 / 2) : ℚ) + (k : ℚ) from by ring,
      Int.ceil_add_int]
    norm_num

theorem round2_cents (k : Int) : round2 ((k : ℚ) / 100) = (k : ℚ) / 100 := by
  unfold round2
  rw [show ((k : ℚ) / 100 * 100) = (k : ℚ) from by ring, pgRound_intCast]

theorem round2_isCents {x : ℚ} (h : isCents x) : round2 x = x := by
  obtain ⟨k, rfl⟩ := h
  exact round2_cents k

/-- `pgRound` distributes over adding an integer when the fractional
part keeps its sign (which is the case for a subtotal and its tax, which
always lie on the same side of zero). -/
theorem pgRound_int_add (k : Int) (x : ℚ) (hsign : 0 ≤ x ↔ 0 ≤ (k : ℚ) + x) :
    pgRound ((k : ℚ) + x) = k + pgRound x := by
  unfold pgRound
  rcases le_or_lt 0 x with h | h
  · rw [if_pos (hsign.mp h), if_pos h,
      show ((k : ℚ) + x + 1 / 2) = (x + 1 / 2) + (k : ℚ) from by ring,
      Int.floor_add_int]
    ring
  · rw [if_neg (fun hc => absurd (hsign.mpr hc) (not_le.mpr h)),
      if_neg (not_le.mpr h),
      show ((k : ℚ) + x - 1 / 2) = (x - 1 / 2) + (k : ℚ) from by ring,
      Int.ceil_add_int]
    ring

/-- The persisted `total_amount` really is the persisted subtotal plus
the persisted `tax_amount`: when the subtotal is an exact two-decimal
value `K/100`, rounding `subtotal + subtotal × TAX_RATE` to two decimals
equals `subtotal` plus the rounding of `subtotal × TAX_RATE`. -/
theorem round2_total_split (K : Int) :
    round2 ((K : ℚ) / 100 + (K : ℚ) / 100 * TAX_RATE) =
      (K : ℚ) / 100 + round2 ((K : ℚ) / 100 * TAX_RATE) := by
  unfold round2 TAX_RATE
  rw [show (((K : ℚ) / 100 + (K : ℚ) / 100 * (1 / 10)) * 100) = (K : ℚ) + (K : ℚ) / 10
      from by ring,
    show (((K : ℚ) / 100 * (1 / 10)) * 100) = (K : ℚ) / 10 from by ring,
    pgRound_int_add K ((K : ℚ) / 10) (by constructor <;> intro h <;> nlinarith)]
  push_cast
  ring

/-! ## Two-decimal closure lemmas -/

theorem isCents_toMoney (k : Int) : isCents (toMoney k) := ⟨k, rfl⟩

theorem isCents_zero : isCents 0 := ⟨0, by norm_num⟩

theorem isCents_add {x y : ℚ} (hx : isCents x) (hy : isCents y) : isCents (x + y) := by
  obtain ⟨k, rfl⟩ := hx
  obtain ⟨l, rfl⟩ := hy
  exact ⟨k + l, by push_cast; ring⟩

theorem isCents_mul_natCast {x : ℚ} (hx : isCents x) (n : Nat) : isCents (x * (n : ℚ)) := by
  obtain ⟨k, rfl⟩ := hx
  exact ⟨k * (n : Int), by push_cast; ring⟩

theorem isCents_shot_total (n : Nat) : isCents ((n : ℚ) * EXTRA_SHOT_PRICE) :=
  ⟨75 * (n : Int), by unfold EXTRA_SHOT_PRICE; push_cast; ring⟩

theorem isCents_sum {l : List ℚ} (h : ∀ x ∈ l, isCents x) : isCents l.sum := by
  induction l with
  | nil => simpa using isCents_zero
  | cons a t ih =>
    rw [List.sum_cons]
    exact isCents_add (h a (List.mem_cons_self a t)) (ih fun x hx => h x (List.mem_cons_of_mem a hx))

theorem isCents_sizeModifierAmount (s : Store) (mi : MenuItem) (line : CreateOrderItemInput) :
    isCents (sizeModifierAmount s mi line) := by
  unfold sizeModifierAmount
  cases line.size with
  | none => exact isCents_zero
  | some sz =>
    by_cases hso : mi.has_size_options <;> simp [hso]
    · cases findSizeModifier s line.menu_item_id sz with
      | none => exact isCents_zero
      | some sp => simpa using isCents_toMoney sp.price_modifier
    · exact isCents_zero

/-! ## priceLine characterization -/

theorem priceLine_error_iff (s : Store) (line : CreateOrderItemInput) (e : OrderError) :
    priceLine s line = Except.error e ↔ lineCheck s line = Option.some e := by
  unfold priceLine lineCheck
  cases hfm : findMenuItem s line.menu_item_id with
  | none => simp
  | some mi =>
    by_cases hav : mi.is_available = false
    · simp [hav]
    · by_cases hsh : 0 < line.extra_shots
      · by_cases hmax : mi.max_extra_shots < line.extra_shots
        · simp [hav, hsh, hmax]
        · simp [hav, hsh, hmax]
      · simp [hav, hsh]

/-- What a successfully priced line looks like: the menu item was found
and available, the descriptive fields (size included) are copied from
the input line, the unit price is base price plus size modifier plus
extra-shot surcharge — with no clamping — and the line total is
unit price times quantity. -/
theorem priceLine_ok_spec (s : Store) (line : CreateOrderItemInput) (pl : PricedLine)
    (h : priceLine s line = Except.ok pl) :
    ∃ mi, findMenuItem s line.menu_item_id = Option.some mi ∧ mi.is_available = true ∧
      pl.menu_item_id = line.menu_item_id ∧ pl.quantity = line.quantity ∧
      pl.size = line.size ∧ pl.milk_type = line.milk_type ∧
      pl.extra_shots = line.extra_shots ∧
      pl.special_instructions = line.special_instructions ∧
      pl.unit_price = toMoney mi.base_price + sizeModifierAmount s mi line +
        (line.extra_shots : ℚ) * EXTRA_SHOT_PRICE ∧
      pl.total_price = pl.unit_price * (line.quantity : ℚ) := by
  unfold priceLine at h
  cases hfm : findMenuItem s line.menu_item_id with
  | none => rw [hfm] at h; exact absurd h (by simp)
  | some mi =>
    rw [hfm] at h
    simp only [] at h
    by_cases hav : mi.is_available = false
    · rw [if_pos hav] at h; exact absurd h (by simp)
    · rw [if_neg hav] at h
      refine ⟨mi, rfl, by revert hav; cases mi.is_available <;> simp, ?_⟩
      have hsize : (match line.size with
          | Option.none => toMoney mi.base_price
          | Option.some sz =>
            if mi.has_size_options then
              match findSizeModifier s line.menu_item_id sz with
              | Option.some sp => toMoney mi.base_price + toMoney sp.price_modifier
              | Option.none => toMoney mi.base_price
            else toMoney mi.base_price) =
          toMoney mi.base_price + sizeModifierAmount s mi line := by
        unfold sizeModifierAmount
        cases line.size with
        | none => ring
        | some sz =>
          by_cases hso : mi.has_size_options <;> simp [hso]
          cases findSizeModifier s line.menu_item_id sz with
          | none => simp
          | some sp => simp
      by_cases hsh : 0 < line.extra_shots
      · rw [if_pos hsh] at h
        by_cases hmax : mi.max_extra_shots < line.extra_shots
        · rw [if_pos hmax] at h; exact absurd h (by simp)
        · rw [if_neg hmax] at h
          simp only [Except.ok.injEq] at h
          subst h
          refine ⟨rfl, rfl, rfl, rfl, rfl, rfl, ?_, rfl⟩
          rw [hsize]
      · rw [if_neg hsh] at h
        simp only [Except.ok.injEq] at h
        subst h
        have hz : line.extra_shots = 0 := by omega
        refine ⟨rfl, rfl, rfl, rfl, rfl, rfl, ?_, rfl⟩
        rw [hsize, hz]
        push_cast
        ring

theorem priceLine_ok_lineCheck (s : Store) (line : CreateOrderItemInput) (pl : PricedLine)
    (h : priceLine s line = Except.ok pl) : lineCheck s line = Option.none := by
  cases hlc : lineCheck s line with
  | none => rfl
  | some e =>
    rw [← priceLine_error_iff] at hlc
    rw [h] at hlc
    cases hlc

theorem priceLine_ok_of_check (s : Store) (line : CreateOrderItemInput)
    (h : lineCheck s line = Option.none) : ∃ pl, priceLine s line = Except.ok pl := by
  cases hpl : priceLine s line with
  | ok pl => exact ⟨pl, rfl⟩
  | error e =>
    rw [priceLine_error_iff] at hpl
    rw [h] at hpl
    cases hpl

theorem priceLine_ok_cents (s : Store) (line : CreateOrderItemInput) (pl : PricedLine)
    (h : priceLine s line = Except.ok pl) :
    isCents pl.unit_price ∧ isCents pl.total_price := by
  obtain ⟨mi, _, _, _, hq, _, _, hsh, _, hu, ht⟩ := priceLine_ok_spec s line pl h
  have hunit : isCents pl.unit_price := by
    rw [hu]
    exact isCents_add (isCents_add (isCents_toMoney _) (isCents_sizeModifierAmount s mi line))
      (isCents_shot_total _)
  exact ⟨hunit, by rw [ht]; exact isCents_mul_natCast hunit _⟩

/-! ## priceLines characterization -/

theorem priceLines_error_iff (s : Store) (items : List CreateOrderItemInput) (e : OrderError) :
    priceLines s items = Except.error e ↔ firstLineError s items = Option.some e := by
  induction items with
  | nil => simp [priceLines, firstLineError]
  | cons item rest ih =>
    unfold priceLines firstLineError
    cases hpl : priceLine s item with
    | error e' =>
      rw [priceLine_error_iff] at hpl
      rw [hpl]
      simp
    | ok pl =>
      rw [priceLine_ok_lineCheck s item pl hpl]
      rw [← ih]
      cases hrest : priceLines s rest with
      | error e' => simp
      | ok pls => simp

theorem priceLines_ok_forall₂ (s : Store) (items : List CreateOrderItemInput)
    (pls : List PricedLine) (h : priceLines s items = Except.ok pls) :
    List.Forall₂ (fun line pl => priceLine s line = Except.ok pl) items pls := by
  induction items generalizing pls with
  | nil =>
    unfold priceLines at h
    simp only [Except.ok.injEq] at h
    subst h
    exact List.Forall₂.nil
  | cons item rest ih =>
    unfold priceLines at h
    cases hpl : priceLine s item with
    | error e' => rw [hpl] at h; cases h
    | ok pl =>
      rw [hpl] at h
      cases hrest : priceLines s rest with
      | error e' => rw [hrest] at h; cases h
      | ok tls =>
        rw [hrest] at h
        simp only [Except.ok.injEq] at h
        subst h
        exact List.Forall₂.cons hpl (ih tls hrest)

theorem priceLines_ok_of_none (s : Store) (items : List CreateOrderItemInput)
    (h : firstLineError s items = Option.none) :
    ∃ pls, priceLines s items = Except.ok pls := by
  cases hpl : priceLines s items with
  | ok pls => exact ⟨pls, rfl⟩
  | error e =>
    rw [priceLines_error_iff] at hpl
    rw [h] at hpl
    cases hpl

/-! ## createOrderRun path equations -/

theorem createOrderRun_eq_validation_error (env : Env) (s : Store) (input : CreateOrderInput)
    (e : OrderError) (hpls : priceLines s input.items = Except.error e) :
    createOrderRun env s input = (s, Except.error e) := by
  unfold createOrderRun
  rw [hpls]

theorem createOrderRun_eq_collision (env : Env) (s : Store) (input : CreateOrderInput)
    (pls : List PricedLine) (hpls : priceLines s input.items = Except.ok pls)
    (hany : (s.orders.any (fun r => r.order_number == "YC" ++ toString env.now)) = true) :
    createOrderRun env s input = (s, Except.error OrderError.persistence) := by
  unfold createOrderRun
  rw [hpls]
  unfold insertOrder
  simp [hany]

theorem createOrderRun_eq_ok (env : Env) (s : Store) (input : CreateOrderInput)
    (pls : List PricedLine) (hpls : priceLines s input.items = Except.ok pls)
    (hany : (s.orders.any (fun r => r.order_number == "YC" ++ toString env.now)) = false)
    (hw : env.itemsWriteOk = true) :
    createOrderRun env s input =
      (let subtotal := (pls.map (fun l => l.total_price)).sum
       let row : OrderRow :=
         { id := s.nextOrderId, order_number := "YC" ++ toString env.now
           status := OrderStatus.pending
           total_amount := round2 (subtotal + subtotal * TAX_RATE)
           tax_amount := round2 (subtotal * TAX_RATE)
           customer_name := input.customer_name
           customer_phone := input.customer_phone
           special_instructions := input.special_instructions
           estimated_ready_time := Option.none
           created_at := env.now, updated_at := env.now }
       ({ s with
            orders := s.orders ++ [row]
            orderItems := s.orderItems ++ pls.map (fun l =>
              { order_id := s.nextOrderId, menu_item_id := l.menu_item_id
                quantity := l.quantity, size := l.size, milk_type := l.milk_type
                extra_shots := l.extra_shots
                unit_price := round2 l.unit_price
                total_price := round2 l.total_price
                special_instructions := l.special_instructions })
            nextOrderId := s.nextOrderId + 1 },
        Except.ok row)) := by
  unfold createOrderRun
  rw [hpls]
  unfold insertOrder
  simp only [hany, Bool.false_eq_true, if_false, hw, if_true]
  unfold insertOrderItems
  simp [List.map_map, Function.comp]

theorem createOrderRun_eq_items_write_fail (env : Env) (s : Store) (input : CreateOrderInput)
    (pls : List PricedLine) (hpls : priceLines s input.items = Except.ok pls)
    (hany : (s.orders.any (fun r => r.order_number == "YC" ++ toString env.now)) = false)
    (hw : env.itemsWriteOk = false) :
    createOrderRun env s input =
      (let subtotal := (pls.map (fun l => l.total_price)).sum
       let row : OrderRow :=
         { id := s.nextOrderId, order_number := "YC" ++ toString env.now
           status := OrderStatus.pending
           total_amount := round2 (subtotal + subtotal * TAX_RATE)
           tax_amount := round2 (subtotal * TAX_RATE)
           customer_name := input.customer_name
           customer_phone := input.customer_phone
           special_instructions := input.special_instructions
           estimated_ready_time := Option.none
           created_at := env.now, updated_at := env.now }
       ({ s with
            orders := s.orders ++ [row]
            nextOrderId := s.nextOrderId + 1 },
        Except.error OrderError.persistence)) := by
  unfold createOrderRun
  rw [hpls]
  unfold insertOrder
  simp [hany, hw]

/-! ## Claim C1 -/

/-- C1 (counterexample): the claim says every persisted unit price
equals `max(base_price + m + extra_shots×0.75, 0)` and hence is
non-negative.  On the deep-discount item (base 1.00, small-size modifier
−2.00) the code persists a unit price of −1.00, while the claimed
formula yields 0: the price computation in create_order.ts is NOT
clamped at zero. -/
theorem C1_counterexample :
    ((createOrderRun baseEnv baseStore discountOrderInput).2.toOption.isSome = true) ∧
    ((createOrderRun baseEnv baseStore discountOrderInput).1.orderItems.map
      (fun r => r.unit_price)) = [-1] ∧
    max (toMoney discountItem.base_price + toMoney deepDiscountPricing.price_modifier +
      ((discountLine.extra_shots : ℚ)) * EXTRA_SHOT_PRICE) 0 = 0 ∧
    ((-1 : ℚ) ≠ 0 ∧ ¬(0 : ℚ) ≤ -1) := by
  refine ⟨?_, ?_, ?_, by norm_num, by norm_num⟩
  · simp [createOrderRun, priceLines, priceLine, findMenuItem, findSizeModifier,
      insertOrder, insertOrderItems, baseEnv, baseStore, discountOrderInput, discountLine,
      coffeeItem, latteItem, offItem, discountItem, latteMediumPricing,
      latteLargePricing, deepDiscountPricing, toMoney, TAX_RATE, EXTRA_SHOT_PRICE,
      round2, pgRound, Except.toOption]
  · simp [createOrderRun, priceLines, priceLine, findMenuItem, findSizeModifier,
      insertOrder, insertOrderItems, baseEnv, baseStore, discountOrderInput, discountLine,
      coffeeItem, latteItem, offItem, discountItem, latteMediumPricing,
      latteLargePricing, deepDiscountPricing, toMoney, TAX_RATE, EXTRA_SHOT_PRICE,
      round2, pgRound]
    norm_num
    rw [show (⌈(-(201 / 2) : ℚ)⌉ : Int) = -100 from by norm_num [Int.ceil_eq_iff]]
    norm_num
  · simp [discountItem, deepDiscountPricing, discountLine, toMoney, EXTRA_SHOT_PRICE]
    norm_num

/-- C1 (amended): for every successful createOrder call, the previously
persisted order items are untouched and each new persisted OrderItem,
line by line, has `unit_price = base_price + m + extra_shots×0.75` —
where `m` is the configured (menu_item, size) modifier when a size is
given, the item has size options and a matching size-pricing row exists,
and `m = 0` otherwise — with NO clamping at zero (the value may be
negative); the input size is recorded on the row even when no modifier
applies, and `total_price = unit_price × quantity`. -/
theorem C1_amended (env : Env) (s : Store) (input : CreateOrderInput) (o : OrderRow)
    (h : (createOrderRun env s input).2 = Except.ok o) :
    (createOrderRun env s input).1.orderItems.take s.orderItems.length = s.orderItems ∧
    List.Forall₂ (fun (line : CreateOrderItemInput) (row : OrderItemRow) =>
        ∃ mi, findMenuItem s line.menu_item_id = Option.some mi ∧
          row.unit_price = toMoney mi.base_price + sizeModifierAmount s mi line +
            (line.extra_shots : ℚ) * EXTRA_SHOT_PRICE ∧
          row.size = line.size ∧ row.quantity = line.quantity ∧
          row.total_price = row.unit_price * (line.quantity : ℚ))
      input.items ((createOrderRun env s input).1.orderItems.drop s.orderItems.length) := by
  cases hpls : priceLines s input.items with
  | error e =>
    rw [createOrderRun_eq_validation_error env s input e hpls] at h
    cases h
  | ok pls =>
    cases hany : s.orders.any (fun r => r.order_number == "YC" ++ toString env.now) with
    | true =>
      rw [createOrderRun_eq_collision env s input pls hpls hany] at h
      cases h
    | false =>
      cases hw : env.itemsWriteOk with
      | false =>
        rw [createOrderRun_eq_items_write_fail env s input pls hpls hany hw] at h
        cases h
      | true =>
        rw [createOrderRun_eq_ok env s input pls hpls hany hw]
        simp only [List.take_left, List.drop_left, true_and]
        rw [List.forall₂_map_right_iff]
        refine (priceLines_ok_forall₂ s input.items pls hpls).imp ?_
        intro line pl hok
        obtain ⟨mi, hmi, _, _, hq, hsz, _, _, _, hu, ht⟩ := priceLine_ok_spec s line pl hok
        obtain ⟨hcu, hct⟩ := priceLine_ok_cents s line pl hok
        refine ⟨mi, hmi, ?_, ?_, ?_, ?_⟩
        · simpa [round2_isCents hcu] using hu
        · simpa using hsz
        · simpa using hq
        · simp only []
          rw [round2_isCents hct, round2_isCents hcu, ht]

/-- Fully evaluated result row of the plain single-line order. -/
def plainOrderRow : OrderRow :=
  { id := 1, order_number := "YC" ++ toString baseEnv.now
    status := OrderStatus.pending
    total_amount := 11 / 2, tax_amount := 1 / 2
    customer_name := Option.some "John Doe", customer_phone := Option.some "+1234567890"
    special_instructions := Option.none, estimated_ready_time := Option.none
    created_at := baseEnv.now, updated_at := baseEnv.now }

theorem C1_witness :
    (createOrderRun baseEnv baseStore plainOrderInput).1.orderItems.take
        baseStore.orderItems.length = baseStore.orderItems ∧
    List.Forall₂ (fun (line : CreateOrderItemInput) (row : OrderItemRow) =>
        ∃ mi, findMenuItem baseStore line.menu_item_id = Option.some mi ∧
          row.unit_price = toMoney mi.base_price + sizeModifierAmount baseStore mi line +
            (line.extra_shots : ℚ) * EXTRA_SHOT_PRICE ∧
          row.size = line.size ∧ row.quantity = line.quantity ∧
          row.total_price = row.unit_price * (line.quantity : ℚ))
      plainOrderInput.items
      ((createOrderRun baseEnv baseStore plainOrderInput).1.orderItems.drop
        baseStore.orderItems.length) :=
  C1_amended baseEnv baseStore plainOrderInput plainOrderRow (by
    simp [createOrderRun, priceLines, priceLine, findMenuItem, findSizeModifier,
      insertOrder, insertOrderItems, baseEnv, baseStore, plainOrderInput, plainLine,
      coffeeItem, latteItem, offItem, discountItem, latteMediumPricing,
      latteLargePricing, deepDiscountPricing, toMoney, TAX_RATE, EXTRA_SHOT_PRICE,
      round2, pgRound, plainOrderRow]
    norm_num)

/-! ## Claim C2 helpers -/

theorem isCents_round2 (x : ℚ) : isCents (round2 x) := ⟨pgRound (x * 100), rfl⟩

theorem forall₂_exists_left {α β : Type} {R : α → β → Prop} {l : List α} {m : List β}
    (h : List.Forall₂ R l m) : ∀ b ∈ m, ∃ a ∈ l, R a b := by
  induction h with
  | nil => intro b hb; cases hb
  | cons hR hrest ih =>
    intro b hb
    rcases List.mem_cons.mp hb with rfl | hb'
    · exact ⟨_, List.mem_cons_self _ _, hR⟩
    · obtain ⟨a, ha, hab⟩ := ih b hb'
      exact ⟨a, List.mem_cons_of_mem _ ha, hab⟩

theorem priceLines_ok_cents (s : Store) (items : List CreateOrderItemInput)
    (pls : List PricedLine) (h : priceLines s items = Except.ok pls) :
    ∀ pl ∈ pls, isCents pl.unit_price ∧ isCents pl.total_price := by
  intro pl hpl
  obtain ⟨line, _, hok⟩ := forall₂_exists_left (priceLines_ok_forall₂ s items pls h) pl hpl
  exact priceLine_ok_cents s line pl hok

theorem priceLines_subtotal_cents (s : Store) (items : List CreateOrderItemInput)
    (pls : List PricedLine) (h : priceLines s items = Except.ok pls) :
    isCents ((pls.map (fun l => l.total_price)).sum) := by
  refine isCents_sum ?_
  intro x hx
  obtain ⟨pl, hpl, rfl⟩ := List.mem_map.mp hx
  exact (priceLines_ok_cents s items pls h pl hpl).2

/-! ## Claim C2 -/

/-- C2: for every successful createOrder, the persisted totals satisfy
`subtotal = Σ line_total` over the persisted lines,
`tax_amount = round2(subtotal × TAX_RATE)` with `TAX_RATE = 0.10`,
`total_amount = subtotal + tax_amount`, every persisted currency value
is an exact two-decimal value (rounding at persistence is idempotent on
it), and a valid single-line order with no size and 0 extra shots has
`total_amount = round2(base_price × quantity × (1 + TAX_RATE))`. -/
theorem C2_totals (env : Env) (s : Store) (input : CreateOrderInput) (o : OrderRow)
    (h : (createOrderRun env s input).2 = Except.ok o) :
    (let newItems := (createOrderRun env s input).1.orderItems.drop s.orderItems.length
     let subtotal := (newItems.map (fun r => r.total_price)).sum
     o.tax_amount = round2 (subtotal * TAX_RATE) ∧
     o.total_amount = subtotal + o.tax_amount ∧
     round2 o.total_amount = o.total_amount ∧
     round2 o.tax_amount = o.tax_amount ∧
     (∀ r ∈ newItems, round2 r.unit_price = r.unit_price ∧
        round2 r.total_price = r.total_price) ∧
     (∀ line mi, input.items = [line] → line.size = Option.none → line.extra_shots = 0 →
        findMenuItem s line.menu_item_id = Option.some mi →
        o.total_amount = round2 (toMoney mi.base_price * (line.quantity : ℚ) * (1 + TAX_RATE)))) := by
  cases hpls : priceLines s input.items with
  | error e =>
    rw [createOrderRun_eq_validation_error env s input e hpls] at h
    cases h
  | ok pls =>
    cases hany : s.orders.any (fun r => r.order_number == "YC" ++ toString env.now) with
    | true =>
      rw [createOrderRun_eq_collision env s input pls hpls hany] at h
      cases h
    | false =>
      cases hw : env.itemsWriteOk with
      | false =>
        rw [createOrderRun_eq_items_write_fail env s input pls hpls hany hw] at h
        cases h
      | true =>
        have heq := createOrderRun_eq_ok env s input pls hpls hany hw
        rw [heq] at h
        simp only [Except.ok.injEq] at h
        subst h
        rw [heq]
        simp only [List.drop_left]
        have hmm : ((pls.map (fun l =>
            ({ order_id := s.nextOrderId, menu_item_id := l.menu_item_id
               quantity := l.quantity, size := l.size, milk_type := l.milk_type
               extra_shots := l.extra_shots
               unit_price := round2 l.unit_price
               total_price := round2 l.total_price
               special_instructions := l.special_instructions } : OrderItemRow))).map
              (fun r => r.total_price)) = pls.map (fun l => l.total_price) := by
          rw [List.map_map]
          refine List.map_congr_left ?_
          intro pl hpl
          exact round2_isCents (priceLines_ok_cents s input.items pls hpls pl hpl).2
        rw [hmm]
        obtain ⟨K, hK⟩ := priceLines_subtotal_cents s input.items pls hpls
        refine ⟨rfl, ?_, ?_, ?_, ?_, ?_⟩
        · rw [hK]
          exact round2_total_split K
        · rw [hK, round2_total_split K]
          refine round2_isCents (isCents_add ⟨K, rfl⟩ (isCents_round2 _))
        · exact round2_isCents (isCents_round2 _)
        · intro r hr
          obtain ⟨pl, hpl, rfl⟩ := List.mem_map.mp hr
          obtain ⟨hcu, hct⟩ := priceLines_ok_cents s input.items pls hpls pl hpl
          exact ⟨round2_isCents (isCents_round2 _), round2_isCents (isCents_round2 _)⟩
        · intro line mi hsingle hsz hsh hmi
          rw [hsingle] at hpls
          unfold priceLines at hpls
          cases hok : priceLine s line with
          | error e => rw [hok] at hpls; cases hpls
          | ok pl =>
            rw [hok] at hpls
            unfold priceLines at hpls
            simp only [Except.ok.injEq] at hpls
            subst hpls
            obtain ⟨mi', hmi', _, _, _, _, _, _, _, hu, ht⟩ := priceLine_ok_spec s line pl hok
            rw [hmi] at hmi'
            cases hmi'
            have hmod : sizeModifierAmount s mi line = 0 := by
              unfold sizeModifierAmount
              rw [hsz]
            have hunit : pl.unit_price = toMoney mi.base_price := by
              rw [hu, hmod, hsh]
              push_cast
              ring
            simp only [List.map_cons, List.map_nil, List.sum_cons, List.sum_nil]
            rw [ht, hunit]
            congr 1
            ring

theorem C2_witness :
    (let newItems := (createOrderRun baseEnv baseStore plainOrderInput).1.orderItems.drop
        baseStore.orderItems.length
     let subtotal := (newItems.map (fun r => r.total_price)).sum
     plainOrderRow.tax_amount = round2 (subtotal * TAX_RATE) ∧
     plainOrderRow.total_amount = subtotal + plainOrderRow.tax_amount ∧
     round2 plainOrderRow.total_amount = plainOrderRow.total_amount ∧
     round2 plainOrderRow.tax_amount = plainOrderRow.tax_amount ∧
     (∀ r ∈ newItems, round2 r.unit_price = r.unit_price ∧
        round2 r.total_price = r.total_price) ∧
     (∀ line mi, plainOrderInput.items = [line] → line.size = Option.none →
        line.extra_shots = 0 →
        findMenuItem baseStore line.menu_item_id = Option.some mi →
        plainOrderRow.total_amount =
          round2 (toMoney mi.base_price * (line.quantity : ℚ) * (1 + TAX_RATE)))) :=
  C2_totals baseEnv baseStore plainOrderInput plainOrderRow (by
    simp [createOrderRun, priceLines, priceLine, findMenuItem, findSizeModifier,
      insertOrder, insertOrderItems, baseEnv, baseStore, plainOrderInput, plainLine,
      coffeeItem, latteItem, offItem, discountItem, latteMediumPricing,
      latteLargePricing, deepDiscountPricing, toMoney, TAX_RATE, EXTRA_SHOT_PRICE,
      round2, pgRound, plainOrderRow]
    norm_num)

/-! ## Claim C3 -/

/-- C3: a non-persistence error of createOrder is exactly the first
failing check (existence, then availability, then — only when
extra_shots > 0 — the extra-shots limit) of the first failing line; at
the boundary, extra_shots equal to max_extra_shots passes the checks
while max_extra_shots + 1 fails with LimitExceeded(name, max). -/
theorem C3_validation_order (env : Env) (s : Store) (input : CreateOrderInput) :
    (∀ e, e ≠ OrderError.persistence →
      ((createOrderRun env s input).2 = Except.error e ↔
        firstLineError s input.items = Option.some e)) ∧
    (∀ line mi, findMenuItem s line.menu_item_id = Option.some mi →
      mi.is_available = true →
      (line.extra_shots = mi.max_extra_shots → lineCheck s line = Option.none) ∧
      (line.extra_shots = mi.max_extra_shots + 1 →
        lineCheck s line = Option.some (OrderError.limitExceeded mi.name mi.max_extra_shots))) := by
  constructor
  · intro e he
    constructor
    · intro h
      cases hpls : priceLines s input.items with
      | error e' =>
        rw [createOrderRun_eq_validation_error env s input e' hpls] at h
        have h' : (Except.error e' : Except OrderError OrderRow) = Except.error e := h
        injection h' with h''
        subst h''
        exact (priceLines_error_iff s input.items _).mp hpls
      | ok pls =>
        cases hany : s.orders.any (fun r => r.order_number == "YC" ++ toString env.now) with
        | true =>
          rw [createOrderRun_eq_collision env s input pls hpls hany] at h
          have h' : (Except.error OrderError.persistence : Except OrderError OrderRow) =
              Except.error e := h
          injection h' with h''
          exact absurd h''.symm he
        | false =>
          cases hw : env.itemsWriteOk with
          | false =>
            rw [createOrderRun_eq_items_write_fail env s input pls hpls hany hw] at h
            have h' : (Except.error OrderError.persistence : Except OrderError OrderRow) =
              Except.error e := h
            injection h' with h''
            exact absurd h''.symm he
          | true =>
            rw [createOrderRun_eq_ok env s input pls hpls hany hw] at h
            cases h
    · intro hf
      have hpls : priceLines s input.items = Except.error e :=
        (priceLines_error_iff s input.items e).mpr hf
      rw [createOrderRun_eq_validation_error env s input e hpls]
  · intro line mi hmi hav
    constructor
    · intro hes
      unfold lineCheck
      rw [hmi]
      simp [hav, hes]
    · intro hes
      unfold lineCheck
      rw [hmi]
      simp [hav, hes]

theorem C3_witness :
    ((createOrderRun baseEnv baseStore
        { customer_name := Option.none, customer_phone := Option.none
          items := [{ menu_item_id := 99999, quantity := 1, size := Option.none
                      milk_type := Option.none, extra_shots := 0
                      special_instructions := Option.none }]
          special_instructions := Option.none
          payment_method := PaymentMethod.cash }).2 =
      Except.error (OrderError.notFound 99999)) :=
  ((C3_validation_order baseEnv baseStore
      { customer_name := Option.none, customer_phone := Option.none
        items := [{ menu_item_id := 99999, quantity := 1, size := Option.none
                    milk_type := Option.none, extra_shots := 0
                    special_instructions := Option.none }]
        special_instructions := Option.none
        payment_method := PaymentMethod.cash }).1
    (OrderError.notFound 99999) (by simp)).mpr (by
      simp [firstLineError, lineCheck, findMenuItem, baseStore,
        coffeeItem, latteItem, offItem, discountItem])

/-! ## Claim C4 -/

/-- C4: whenever createOrder fails with a validation error (NotFound,
Unavailable or LimitExceeded — anything but a persistence failure), the
store is left exactly as it was: no Order row and no OrderItem row from
the call is persisted. -/
theorem C4_no_partial_writes (env : Env) (s : Store) (input : CreateOrderInput)
    (e : OrderError) (h : (createOrderRun env s input).2 = Except.error e)
    (hv : e ≠ OrderError.persistence) :
    (createOrderRun env s input).1 = s := by
  cases hpls : priceLines s input.items with
  | error e' =>
    rw [createOrderRun_eq_validation_error env s input e' hpls]
  | ok pls =>
    cases hany : s.orders.any (fun r => r.order_number == "YC" ++ toString env.now) with
    | true =>
      rw [createOrderRun_eq_collision env s input pls hpls hany]
    | false =>
      cases hw : env.itemsWriteOk with
      | false =>
        rw [createOrderRun_eq_items_write_fail env s input pls hpls hany hw] at h
        have h' : (Except.error OrderError.persistence : Except OrderError OrderRow) =
            Except.error e := h
        injection h' with h''
        exact absurd h''.symm hv
      | true =>
        rw [createOrderRun_eq_ok env s input pls hpls hany hw] at h
        cases h

def unavailableOrderInput : CreateOrderInput :=
  { customer_name := Option.none, customer_phone := Option.none
    items := [{ menu_item_id := 3, quantity := 1, size := Option.none
                milk_type := Option.none, extra_shots := 0
                special_instructions := Option.none }]
    special_instructions := Option.none
    payment_method := PaymentMethod.cash }

theorem C4_witness :
    (createOrderRun baseEnv baseStore unavailableOrderInput).1 = baseStore :=
  C4_no_partial_writes baseEnv baseStore unavailableOrderInput
    (OrderError.unavailable "Unavailable Item")
    (by simp [createOrderRun, priceLines, priceLine, findMenuItem, baseStore,
      unavailableOrderInput, coffeeItem, latteItem, offItem, discountItem])
    (by simp)

/-! ## Claim C5 -/

def failEnv : Env := { now := 1700000000000, itemsWriteOk := false }

/-- C5: the claim states the Order row and its OrderItem rows are one
atomic write.  The code issues two separate inserts with no transaction:
when the storage layer fails the order-items insert, the call errors but
the already-inserted Order row stays behind with no OrderItem rows —
refuting atomicity on a concrete run. -/
theorem C5_order_without_items :
    ((createOrderRun failEnv baseStore plainOrderInput).2 =
      Except.error OrderError.persistence) ∧
    ((createOrderRun failEnv baseStore plainOrderInput).1.orders.map
      (fun o => o.order_number)) = ["YC" ++ toString failEnv.now] ∧
    (createOrderRun failEnv baseStore plainOrderInput).1.orderItems = [] ∧
    baseStore.orders = [] := by
  refine ⟨?_, ?_, ?_, rfl⟩ <;>
    simp [createOrderRun, priceLines, priceLine, findMenuItem, findSizeModifier,
      insertOrder, insertOrderItems, failEnv, baseStore, plainOrderInput, plainLine,
      coffeeItem, latteItem, offItem, discountItem, latteMediumPricing,
      latteLargePricing, deepDiscountPricing, toMoney, TAX_RATE, EXTRA_SHOT_PRICE,
      round2, pgRound]

/-! ## Claim C6 -/

/-- C6: the unique constraint on order_number is preserved by every
createOrder call — two successfully persisted orders never share an
order_number — and when the generated "YC" + timestamp collides with an
existing order's number the call fails cleanly, changing nothing and
returning no order. -/
theorem C6_order_number_unique (env : Env) (s : Store) (input : CreateOrderInput)
    (hs : s.orders.Pairwise (fun a b => a.order_number ≠ b.order_number)) :
    ((createOrderRun env s input).1.orders.Pairwise
      (fun a b => a.order_number ≠ b.order_number)) ∧
    ((∃ r ∈ s.orders, r.order_number = "YC" ++ toString env.now) →
      (createOrderRun env s input).1 = s ∧
      ∀ o, (createOrderRun env s input).2 ≠ Except.ok o) := by
  have hfresh : ∀ row : OrderRow, row.order_number = "YC" ++ toString env.now →
      (s.orders.any (fun r => r.order_number == "YC" ++ toString env.now)) = false →
      (s.orders ++ [row]).Pairwise (fun a b => a.order_number ≠ b.order_number) := by
    intro row hrow hany
    rw [List.pairwise_append]
    refine ⟨hs, List.pairwise_singleton _ _, ?_⟩
    intro a ha b hb
    rw [List.mem_singleton] at hb
    subst hb
    have := (List.any_eq_false.mp hany) a ha
    rw [hrow]
    simpa using this
  constructor
  · cases hpls : priceLines s input.items with
    | error e =>
      rw [createOrderRun_eq_validation_error env s input e hpls]
      exact hs
    | ok pls =>
      cases hany : s.orders.any (fun r => r.order_number == "YC" ++ toString env.now) with
      | true =>
        rw [createOrderRun_eq_collision env s input pls hpls hany]
        exact hs
      | false =>
        cases hw : env.itemsWriteOk with
        | false =>
          rw [createOrderRun_eq_items_write_fail env s input pls hpls hany hw]
          exact hfresh _ rfl hany
        | true =>
          rw [createOrderRun_eq_ok env s input pls hpls hany hw]
          exact hfresh _ rfl hany
  · rintro ⟨r, hr, hrn⟩
    have hany : (s.orders.any (fun r => r.order_number == "YC" ++ toString env.now)) = true :=
      List.any_eq_true.mpr ⟨r, hr, by simp [hrn]⟩
    cases hpls : priceLines s input.items with
    | error e =>
      rw [createOrderRun_eq_validation_error env s input e hpls]
      exact ⟨rfl, fun o h => by cases h⟩
    | ok pls =>
      rw [createOrderRun_eq_collision env s input pls hpls hany]
      exact ⟨rfl, fun o h => by cases h⟩

theorem C6_witness :
    ((createOrderRun baseEnv baseStore discountOrderInput).1.orders.Pairwise
      (fun a b => a.order_number ≠ b.order_number)) :=
  (C6_order_number_unique baseEnv baseStore discountOrderInput (by simp [baseStore])).1

/-! ## createPayment path equations -/

theorem createPayment_eq_notFound (env : Env) (s : Store) (input : CreatePaymentInput)
    (hfo : findOrder s input.order_id = Option.none) :
    createPayment env s input = (s, Except.error (PaymentError.orderNotFound input.order_id)) := by
  unfold createPayment
  rw [hfo]

theorem createPayment_eq_mismatch (env : Env) (s : Store) (input : CreatePaymentInput)
    (ord : OrderRow) (hfo : findOrder s input.order_id = Option.some ord)
    (hm : 1 / 100 < |input.amount - ord.total_amount|) :
    createPayment env s input =
      (s, Except.error (PaymentError.amountMismatch input.amount ord.total_amount)) := by
  unfold createPayment
  simp only [hfo]
  rw [if_pos hm]

theorem createPayment_eq_ok (env : Env) (s : Store) (input : CreatePaymentInput)
    (ord : OrderRow) (hfo : findOrder s input.order_id = Option.some ord)
    (hm : ¬(1 / 100 < |input.amount - ord.total_amount|)) :
    createPayment env s input =
      (let row : PaymentRow :=
        { id := s.nextPaymentId, order_id := input.order_id
          amount := round2 input.amount
          payment_method := input.payment_method
          payment_status :=
            if input.payment_method = PaymentMethod.cash then PaymentStatus.completed
            else if input.payment_method = PaymentMethod.qr_code then PaymentStatus.completed
            else PaymentStatus.processing
          transaction_id := input.transaction_id
          payment_gateway_response := Option.some
            (if input.payment_method = PaymentMethod.cash then "Cash payment received"
             else if input.payment_method = PaymentMethod.qr_code then
               "QR code payment processed successfully"
             else methodName input.payment_method ++ " payment initiated")
          updated_at := env.now }
       ({ s with payments := s.payments ++ [row], nextPaymentId := s.nextPaymentId + 1 },
        Except.ok row)) := by
  unfold createPayment
  simp only [hfo]
  rw [if_neg hm]

/-! ## Claim C7 -/

/-- C7: for every payment successfully created by createPayment, the
persisted payment_status is `completed` exactly when the payment method
is cash or qr_code, and `processing` for every other method; the outcome
is a function of the payment method alone. -/
theorem C7_payment_status_stub (env : Env) (s : Store) (input : CreatePaymentInput)
    (p : PaymentRow) (h : (createPayment env s input).2 = Except.ok p) :
    p.payment_status =
      (if input.payment_method = PaymentMethod.cash ∨
          input.payment_method = PaymentMethod.qr_code
       then PaymentStatus.completed else PaymentStatus.processing) := by
  cases hfo : findOrder s input.order_id with
  | none =>
    rw [createPayment_eq_notFound env s input hfo] at h
    cases h
  | some ord =>
    by_cases hm : 1 / 100 < |input.amount - ord.total_amount|
    · rw [createPayment_eq_mismatch env s input ord hfo hm] at h
      cases h
    · rw [createPayment_eq_ok env s input ord hfo hm] at h
      simp only [Except.ok.injEq] at h
      subst h
      cases input.payment_method <;> simp

/-- The store in which the plain order row has been persisted. -/
def paidStore : Store :=
  { baseStore with orders := [plainOrderRow], nextOrderId := 2 }

def cashPaymentInput : CreatePaymentInput :=
  { order_id := 1, amount := 11 / 2, payment_method := PaymentMethod.cash
    transaction_id := Option.none }

def cashPaymentRow : PaymentRow :=
  { id := 1, order_id := 1, amount := 11 / 2
    payment_method := PaymentMethod.cash, payment_status := PaymentStatus.completed
    transaction_id := Option.none
    payment_gateway_response := Option.some "Cash payment received"
    updated_at := baseEnv.now }

theorem C7_witness :
    cashPaymentRow.payment_status =
      (if cashPaymentInput.payment_method = PaymentMethod.cash ∨
          cashPaymentInput.payment_method = PaymentMethod.qr_code
       then PaymentStatus.completed else PaymentStatus.processing) :=
  C7_payment_status_stub baseEnv paidStore cashPaymentInput cashPaymentRow (by
    simp [createPayment, findOrder, paidStore, baseStore, plainOrderRow, cashPaymentInput,
      cashPaymentRow, round2, pgRound, baseEnv]
    norm_num)

/-! ## Claim C8 -/

/-- C8: createPayment requires the referenced order to exist — else it
fails with an error carrying the order id — and the payment amount to
be within 0.01 of the order's total_amount — else it fails with an error
carrying both amounts; in either failure case the store is untouched (no
payment row is written), and within the tolerance a payment is created. -/
theorem C8_payment_preconditions (env : Env) (s : Store) (input : CreatePaymentInput) :
    (findOrder s input.order_id = Option.none →
      (createPayment env s input).2 =
        Except.error (PaymentError.orderNotFound input.order_id) ∧
      (createPayment env s input).1 = s) ∧
    (∀ ord, findOrder s input.order_id = Option.some ord →
      1 / 100 < |input.amount - ord.total_amount| →
      (createPayment env s input).2 =
        Except.error (PaymentError.amountMismatch input.amount ord.total_amount) ∧
      (createPayment env s input).1 = s) ∧
    (∀ ord, findOrder s input.order_id = Option.some ord →
      |input.amount - ord.total_amount| ≤ 1 / 100 →
      ∃ p, (createPayment env s input).2 = Except.ok p) := by
  refine ⟨?_, ?_, ?_⟩
  · intro hfo
    rw [createPayment_eq_notFound env s input hfo]
    exact ⟨rfl, rfl⟩
  · intro ord hfo hm
    rw [createPayment_eq_mismatch env s input ord hfo hm]
    exact ⟨rfl, rfl⟩
  · intro ord hfo hm
    rw [createPayment_eq_ok env s input ord hfo (not_lt.mpr hm)]
    exact ⟨_, rfl⟩

theorem C8_witness :
    (createPayment baseEnv baseStore
        { order_id := 42, amount := 5, payment_method := PaymentMethod.cash
          transaction_id := Option.none }).2 =
      Except.error (PaymentError.orderNotFound 42) ∧
    (createPayment baseEnv baseStore
        { order_id := 42, amount := 5, payment_method := PaymentMethod.cash
          transaction_id := Option.none }).1 = baseStore :=
  (C8_payment_preconditions baseEnv baseStore
      { order_id := 42, amount := 5, payment_method := PaymentMethod.cash
        transaction_id := Option.none }).1
    (by simp [findOrder, baseStore])

/-! ## Claim C9 -/

/-- C9: for every successful updatePaymentStatus call, when the new
payment_status is `completed` the referenced order's status is set to
`confirmed` with a refreshed updated_at, and for any other status the
orders table is left completely unchanged. -/
theorem C9_completed_confirms_order (env : Env) (s : Store) (input : UpdatePaymentStatusInput)
    (p : PaymentRow) (h : (updatePaymentStatus env s input).2 = Except.ok p) :
    ∃ pay, findPayment s input.id = Option.some pay ∧
      (input.payment_status = PaymentStatus.completed →
        (updatePaymentStatus env s input).1.orders = s.orders.map (fun o =>
          if o.id == pay.order_id then
            { o with status := OrderStatus.confirmed, updated_at := env.now }
          else o)) ∧
      (input.payment_status ≠ PaymentStatus.completed →
        (updatePaymentStatus env s input).1.orders = s.orders) := by
  cases hfp : findPayment s input.id with
  | none =>
    unfold updatePaymentStatus at h
    rw [hfp] at h
    cases h
  | some pay =>
    refine ⟨pay, rfl, ?_, ?_⟩
    · intro hc
      unfold updatePaymentStatus
      simp only [hfp]
      rw [if_pos hc]
    · intro hc
      unfold updatePaymentStatus
      simp only [hfp]
      rw [if_neg hc]

def completePaymentInput : UpdatePaymentStatusInput :=
  { id := 1, payment_status := PaymentStatus.completed
    transaction_id := Option.none, payment_gateway_response := Option.none }

/-- Store holding the plain order and its cash payment. -/
def payStore : Store :=
  { baseStore with
      orders := [plainOrderRow], payments := [cashPaymentRow],
      nextOrderId := 2, nextPaymentId := 2 }

theorem C9_witness :
    (∃ pay, findPayment payStore completePaymentInput.id = Option.some pay ∧
      (completePaymentInput.payment_status = PaymentStatus.completed →
        (updatePaymentStatus baseEnv payStore completePaymentInput).1.orders =
          payStore.orders.map (fun o =>
            if o.id == pay.order_id then
              { o with status := OrderStatus.confirmed, updated_at := baseEnv.now }
            else o)) ∧
      (completePaymentInput.payment_status ≠ PaymentStatus.completed →
        (updatePaymentStatus baseEnv payStore completePaymentInput).1.orders =
          payStore.orders)) :=
  C9_completed_confirms_order baseEnv payStore completePaymentInput
    (applyPaymentUpdate baseEnv completePaymentInput cashPaymentRow)
    (by simp [updatePaymentStatus, findPayment, payStore, baseStore, cashPaymentRow,
      completePaymentInput])

/-! ## Claim C10 -/

/-- C10: updateOrderStatus enforces no state-machine rules — for every
existing order and every status value (terminal states included) the
call succeeds, sets exactly the requested status, refreshes updated_at,
and overwrites estimated_ready_time only when the field is provided in
the input. -/
theorem C10_no_transition_rules (env : Env) (s : Store) (input : UpdateOrderStatusInput)
    (ord : OrderRow) (h : findOrder s input.id = Option.some ord) :
    (updateOrderStatus env s input).2 = Except.ok (applyOrderUpdate env input ord) ∧
    (applyOrderUpdate env input ord).status = input.status ∧
    (applyOrderUpdate env input ord).updated_at = env.now ∧
    (applyOrderUpdate env input ord).estimated_ready_time =
      (match input.estimated_ready_time with
       | Option.some t => t
       | Option.none => ord.estimated_ready_time) ∧
    (updateOrderStatus env s input).1.orders = s.orders.map (fun o =>
      if o.id == input.id then applyOrderUpdate env input o else o) := by
  refine ⟨?_, ?_, ?_, ?_, ?_⟩
  · unfold updateOrderStatus
    simp only [h]
  · unfold applyOrderUpdate
    cases input.estimated_ready_time <;> simp
  · unfold applyOrderUpdate
    cases input.estimated_ready_time <;> simp
  · unfold applyOrderUpdate
    cases input.estimated_ready_time <;> simp
  · unfold updateOrderStatus
    simp only [h]

/-- An order already in the terminal `completed` state. -/
def doneOrderRow : OrderRow :=
  { plainOrderRow with status := OrderStatus.completed }

def doneStore : Store :=
  { baseStore with orders := [doneOrderRow], nextOrderId := 2 }

def reopenInput : UpdateOrderStatusInput :=
  { id := 1, status := OrderStatus.pending, estimated_ready_time := Option.none }

theorem C10_witness :
    (updateOrderStatus baseEnv doneStore reopenInput).2 =
      Except.ok (applyOrderUpdate baseEnv reopenInput doneOrderRow) ∧
    (applyOrderUpdate baseEnv reopenInput doneOrderRow).status = reopenInput.status ∧
    (applyOrderUpdate baseEnv reopenInput doneOrderRow).updated_at = baseEnv.now ∧
    (applyOrderUpdate baseEnv reopenInput doneOrderRow).estimated_ready_time =
      (match reopenInput.estimated_ready_time with
       | Option.some t => t
       | Option.none => doneOrderRow.estimated_ready_time) ∧
    (updateOrderStatus baseEnv doneStore reopenInput).1.orders = doneStore.orders.map (fun o =>
      if o.id == reopenInput.id then applyOrderUpdate baseEnv reopenInput o else o) :=
  C10_no_transition_rules baseEnv doneStore reopenInput doneOrderRow
    (by simp [findOrder, doneStore, baseStore, doneOrderRow, plainOrderRow, reopenInput])

end YokoCafe
